import Mathlib

/-
Shallow embedding of the gemini-bot session/quota orchestration core
(src/agent.py, src/utils.py, src/bot.py, src/models.py) and proofs about
the specification's claims.

Modelling conventions:
- datetimes are integer seconds (`Time := Int`); `datetime.now()` becomes an
  explicit `now : Int` parameter at each call site that reads the clock.
- the generative backend call is an explicit `Except String String` parameter:
  `.ok text` models a successful call returning `text`, `.error e` models the
  call raising with message `e`.
- Python dicts become association lists in insertion order; `dict[k] = v`
  replaces in place or appends, `pop` removes the key's entry.
- exceptions become `Except`; the post-exception state is returned alongside
  the result, since the Python objects survive a raised exception.
- Python `round(x, 2)` (banker's rounding to 2 decimal places) followed by
  `int(...)` (truncation toward zero) is modelled exactly over integers.
-/

namespace GeminiBot

/-- models.py `Chat` dataclass: per-user session record. The opaque
`genai.ChatSession` handle carries no state our claims touch, so it is
omitted; `username`, `creation_time`, `last_message` are kept as in source. -/
structure Chat where
  username : String
  creation_time : Int
  last_message : Option Int
deriving Repr, DecidableEq

/-- Opaque binary stream handed to the attachment classifier. `decodable`
models whether `PIL.Image.open` succeeds on it; `decode_error` is the text of
the exception raised when it does not (`str(e)` in source). -/
structure IOContent where
  decodable : Bool
  decode_error : String
deriving Repr, DecidableEq

/-- models.py `File` dataclass. -/
structure File where
  name : String
  content : IOContent
  content_type : String
deriving Repr, DecidableEq

/-- The exception kinds raised by the core (exception.py):
`doneForTheDay` = DoneForTheDayException, `backendError` = an exception
propagating out of the genai client call, `fileProcessing` =
FileProcessingException. -/
inductive AgentError where
  | doneForTheDay (message : String)
  | backendError (message : String)
  | fileProcessing (message : String)
deriving Repr, DecidableEq

/-- agent.py `GeminiAgent` mutable state: the chats dict and the request
counter, plus the configured daily limit. -/
structure AgentState where
  daily_limit : Int
  chats : List (String × Chat)
  request_count : Int
deriving Repr, DecidableEq

/-! ### Python dict operations on association lists -/

/-- `d.get(k, None)`: first (and, for a dict, only) binding of `k`. -/
def dictGet (k : String) : List (String × Chat) → Option Chat
  | [] => none
  | (k', v) :: rest => if k' = k then some v else dictGet k rest

/-- `d[k] = v`: replace the binding in place if present, else append. -/
def dictInsert (k : String) (v : Chat) : List (String × Chat) → List (String × Chat)
  | [] => [(k, v)]
  | (k', v') :: rest =>
    if k' = k then (k, v) :: rest else (k', v') :: dictInsert k v rest

/-- `d.pop(k, None)`: drop the binding of `k` if present. -/
def dictPop (k : String) : List (String × Chat) → List (String × Chat)
  | [] => []
  | (k', v) :: rest => if k' = k then rest else (k', v) :: dictPop k rest

/-- `chat.last_message = t` where `chat` is the object aliased inside the
dict: updates the stored record for key `k`. -/
def dictSetLast (k : String) (t : Int) : List (String × Chat) → List (String × Chat)
  | [] => []
  | (k', v) :: rest =>
    if k' = k then (k', { v with last_message := some t }) :: rest
    else (k', v) :: dictSetLast k t rest

/-! ### Quota gate -/

/-- utils.py `validate_request_limit`: admits iff `request_count + 1 <
daily_limit` (strict), else raises DoneForTheDayException. -/
def validate_request_limit (daily_limit request_count : Int) : Except AgentError Unit :=
  let less_than_limit := request_count + 1 < daily_limit
  if ¬ less_than_limit then .error (.doneForTheDay "Daily limit has been reached.")
  else .ok ()

/-- agent.py `GeminiAgent.__validate_request_limit`: admits iff
`request_count + 1 <= daily_limit` (non-strict), else raises
DoneForTheDayException. -/
def validate_request_limit_agent (daily_limit request_count : Int) : Except AgentError Unit :=
  let less_than_limit := request_count + 1 ≤ daily_limit
  if ¬ less_than_limit then .error (.doneForTheDay "Daily limit has been reached.")
  else .ok ()

/-- Modelled from the spec: the scheduled `reset()` of the Quota Gate
(spec §4.1, §6). No reset appears under src/ — only the external-scheduler
contract references it — so it is taken from the spec's words: "reset()
zeroes the counter". -/
def resetQuota (s : AgentState) : AgentState :=
  { s with request_count := 0 }

/-! ### GeminiAgent operations (src/agent.py) -/

/-- agent.py `get_chat_for_user`. -/
def get_chat_for_user (s : AgentState) (username : String) : Option Chat :=
  dictGet username s.chats

/-- agent.py `store_chat`: stores the chat if it is truthy (non-None). -/
def store_chat (s : AgentState) (chat : Option Chat) : AgentState :=
  match chat with
  | none => s
  | some c => { s with chats := dictInsert c.username c s.chats }

/-- agent.py `remove_chat`: pops the user's chat if present. -/
def remove_chat (s : AgentState) (username : String) : AgentState :=
  { s with chats := dictPop username s.chats }

/-- agent.py `remove_all_chats`: reads `len(self.chats)`, clears the dict,
logs the count, and returns `None` (annotated `-> None`). Result is
(returned value, logged chats_deleted, new state); the returned value is
always `none`, mirroring the source's `None` return. -/
def remove_all_chats (s : AgentState) : Option Nat × Nat × AgentState :=
  (none, s.chats.length, { s with chats := [] })

/-- agent.py `process_chat_prompt`: quota check; lazy session creation
(stored before the backend call); backend send; on success set
`last_message`, increment the counter and return the text. Returns the
result together with the post-call agent state. -/
def process_chat_prompt (s : AgentState) (username _prompt : String)
    (now : Int) (backend : Except String String) :
    Except AgentError String × AgentState :=
  if ¬ (s.request_count + 1 ≤ s.daily_limit) then
    (.error (.doneForTheDay "Daily limit has been reached."), s)
  else
    let s1 :=
      match get_chat_for_user s username with
      | some _ => s
      | none =>
        store_chat s (some { username := username, creation_time := now, last_message := none })
    match backend with
    | .error e => (.error (.backendError e), s1)
    | .ok text =>
      (.ok text,
        { s1 with
          chats := dictSetLast username now s1.chats,
          request_count := s1.request_count + 1 })

/-- agent.py `process_file_prompt`: quota check; single-shot backend call
with `[file.content, prompt]`; `file.close()` after the call returns — there
is no try/finally, so a raising backend call skips the close, and no
increment of the request counter appears on any path. The third component
records whether `file.close()` was invoked. -/
def process_file_prompt (s : AgentState) (_username _prompt : String)
    (_file : File) (backend : Except String String) :
    Except AgentError String × AgentState × Bool :=
  if ¬ (s.request_count + 1 ≤ s.daily_limit) then
    (.error (.doneForTheDay "Daily limit has been reached."), s, false)
  else
    match backend with
    | .error e => (.error (.backendError e), s, false)
    | .ok text => (.ok text, s, true)

/-- Iterate `process_chat_prompt` with an always-succeeding backend, keeping
only the evolving state (used to state the quota-capacity property). -/
def iterDispatch (username prompt : String) (now : Int) (reply : String) :
    Nat → AgentState → AgentState
  | 0, s => s
  | n + 1, s =>
    iterDispatch username prompt now reply n
      (process_chat_prompt s username prompt now (.ok reply)).2

/-! ### Prompt validation (src/bot.py on_message) -/

/-- bot.py `on_message` prompt gate: rejects iff `not prompt or len(prompt)
< 1` (Python string truthiness is `len > 0`); there is no upper-length check
in the source. `true` = admitted. -/
def prompt_admitted (prompt : String) : Bool :=
  ! (decide (prompt.length = 0) || decide (prompt.length < 1))

/-! ### Attachment classifier (src/utils.py) -/

/-- utils.py `ALLOWED_FILE_TYPES` dict. -/
def ALLOWED_FILE_TYPES : List (String × Bool) :=
  [("application/pdf", false),
   ("text/plain; charset=utf-8", true),
   ("image/jpeg", true),
   ("image/jpg", true),
   ("image/png", true),
   ("audio/mp3", true),
   ("audio/mp4", true),
   ("video/quicktime", true),
   ("video/mp4", true),
   ("video/mpeg", true),
   ("video/mov", true),
   ("video/avi", true),
   ("video/x-flv", true),
   ("video/mpg", true),
   ("video/webm", true),
   ("video/wmv", true),
   ("video/3gpp", true)]

/-- `ALLOWED_FILE_TYPES.get(content_type, False)`. -/
def allowedGet (content_type : String) : Bool :=
  go ALLOWED_FILE_TYPES
where
  go : List (String × Bool) → Bool
    | [] => false
    | (k, v) :: rest => if k = content_type then v else go rest

/-- utils.py `get_file`: gate on the allow-list, then match on the content
type. Images decode (or raise FileProcessingException with the decoder's
message); the audio and video arms set `file = None` and return it, so they
return `None` rather than raising; admitted types absent from the match
(`text/plain; charset=utf-8`, `video/quicktime`) hit the wildcard arm and
raise. `.ok (some f)` = a File returned, `.ok none` = Python `None`
returned. -/
def get_file (filename : String) (content : IOContent) (content_type : String) :
    Except AgentError (Option File) :=
  let is_supported := allowedGet content_type
  if ¬ is_supported then
    .error (.fileProcessing "That filetype is not supported.")
  else if content_type = "image/jpeg" ∨ content_type = "image/jpg" ∨
      content_type = "image/png" then
    if content.decodable then
      .ok (some { name := filename, content := content, content_type := content_type })
    else
      .error (.fileProcessing content.decode_error)
  else if content_type = "audio/mp3" ∨ content_type = "audio/mp4" then
    .ok none
  else if content_type = "video/mp4" ∨ content_type = "video/mpeg" ∨
      content_type = "video/mov" ∨ content_type = "video/avi" ∨
      content_type = "video/x-flv" ∨ content_type = "video/mpg" ∨
      content_type = "video/webm" ∨ content_type = "video/wmv" ∨
      content_type = "video/3gpp" then
    .ok none
  else
    .error (.fileProcessing ("Invalid file type. " ++ content_type))

/-- Whether an `Except` value is a success (models "the call did not
raise"). -/
def exceptOk {ε α : Type} : Except ε α → Bool
  | .ok _ => true
  | .error _ => false

/-! ### get_time_delta (src/utils.py) -/

/-- Python `round(a / b)` for integers `a`, `b > 0`: round half to even.
(`/` and `%` on `Int` are Euclidean division, which for a positive divisor
coincides with Python's floor division.) -/
def roundHalfEvenDiv (a b : Int) : Int :=
  let f := a / b
  let r := a % b
  if 2 * r < b then f
  else if b < 2 * r then f + 1
  else if f % 2 = 0 then f else f + 1

/-- Python `int(x)` for a rational `a / b` with `b > 0`: truncation toward
zero. -/
def truncDiv (a b : Int) : Int :=
  if a < 0 then - ((- a) / b) else a / b

/-- utils.py `get_time_delta`: `None` if either argument is `None`; else
swap so end is the later time, take whole seconds, and compute
`int(round(total_seconds / 3600, 2))` — banker's rounding of the hour count
to 2 decimal places, then truncation toward zero. Modelled exactly over
integers: `round(x, 2) = roundHalfEven(100 x) / 100`. -/
def get_time_delta (start end_ : Option Int) : Option Int :=
  match start, end_ with
  | some s0, some e0 =>
    let p := if e0 < s0 then (e0, s0) else (s0, e0)
    let total_seconds : Int := p.2 - p.1
    some (truncDiv (roundHalfEvenDiv (total_seconds * 100) 3600) 100)
  | _, _ => none

/-! ### Eviction sweep (src/bot.py BotCog.erase_old_chats) -/

/-- The ways one run of `erase_old_chats` can raise: `typeError` models
Python's `None > int` comparison when a chat has `last_message = None`
(`get_time_delta` returned `None`); `runtimeError` models CPython's
"dictionary changed size during iteration", raised by the dict iterator's
next size check after `remove_chat` has popped an entry. -/
inductive SweepError where
  | typeError
  | runtimeError
deriving Repr, DecidableEq

/-- The loop body of `erase_old_chats`. `items` is the iteration sequence of
`chats.items()`, `store` the live dict contents, `mutated` whether a removal
has happened since the iterator was last advanced; CPython's dict iterator
checks the size before yielding each item and again at exhaustion, so any
removal raises RuntimeError at the very next advance. -/
def erase_old_chats_go (ttl : Int) (now : Int) :
    List (String × Chat) → List (String × Chat) → Bool →
      Except SweepError (List (String × Chat))
  | [], store, mutated =>
    if mutated then .error .runtimeError else .ok store
  | (u, c) :: rest, store, mutated =>
    if mutated then .error .runtimeError
    else
      match get_time_delta c.last_message (some now) with
      | none => .error .typeError
      | some duration =>
        if ttl < duration then
          erase_old_chats_go ttl now rest (dictPop u store) true
        else
          erase_old_chats_go ttl now rest store false

/-- bot.py `BotCog.erase_old_chats`: for each `(username, chat)` in the live
chats dict, compute `get_time_delta(chat.last_message, now)` and
`remove_chat(username)` when it strictly exceeds `chat_ttl`. There is no
snapshot and no `created_at` fallback. Returns the surviving store, or the
exception the run raises. -/
def erase_old_chats (ttl : Int) (now : Int) (store : List (String × Chat)) :
    Except SweepError (List (String × Chat)) :=
  erase_old_chats_go ttl now store store false

/-! ## Helper lemmas -/

theorem dictGet_insert_self (k : String) (v : Chat) (l : List (String × Chat)) :
    dictGet k (dictInsert k v l) = some v := by
  induction l with
  | nil => simp [dictInsert, dictGet]
  | cons hd tl ih =>
    obtain ⟨k', v'⟩ := hd
    by_cases h : k' = k <;> simp [dictInsert, dictGet, h, ih]

theorem dictGet_insert_ne (k : String) (v : Chat) (l : List (String × Chat))
    (k₂ : String) (h : k₂ ≠ k) : dictGet k₂ (dictInsert k v l) = dictGet k₂ l := by
  induction l with
  | nil => simp [dictInsert, dictGet, Ne.symm h]
  | cons hd tl ih =>
    obtain ⟨k', v'⟩ := hd
    by_cases hk : k' = k
    · subst hk
      simp [dictInsert, dictGet, Ne.symm h]
    · simp [dictInsert, dictGet, hk, ih]

theorem keys_insert_present (k : String) (v : Chat) (l : List (String × Chat))
    (h : (dictGet k l).isSome) :
    (dictInsert k v l).map Prod.fst = l.map Prod.fst := by
  induction l with
  | nil => simp [dictGet] at h
  | cons hd tl ih =>
    obtain ⟨k', v'⟩ := hd
    by_cases hk : k' = k
    · simp [dictInsert, hk]
    · simp only [dictGet, if_neg hk] at h
      simp [dictInsert, hk, ih h]

theorem keys_insert_absent (k : String) (v : Chat) (l : List (String × Chat))
    (h : dictGet k l = none) :
    (dictInsert k v l).map Prod.fst = l.map Prod.fst ++ [k] := by
  induction l with
  | nil => simp [dictInsert]
  | cons hd tl ih =>
    obtain ⟨k', v'⟩ := hd
    by_cases hk : k' = k
    · simp [dictGet, hk] at h
    · simp only [dictGet, if_neg hk] at h
      simp [dictInsert, hk, ih h]

theorem keys_setLast (k : String) (t : Int) (l : List (String × Chat)) :
    (dictSetLast k t l).map Prod.fst = l.map Prod.fst := by
  induction l with
  | nil => simp [dictSetLast]
  | cons hd tl ih =>
    obtain ⟨k', v'⟩ := hd
    by_cases hk : k' = k <;> simp [dictSetLast, hk, ih]

theorem dictGet_setLast_self (k : String) (t : Int) (l : List (String × Chat)) :
    dictGet k (dictSetLast k t l) =
      (dictGet k l).map (fun c => { c with last_message := some t }) := by
  induction l with
  | nil => simp [dictSetLast, dictGet]
  | cons hd tl ih =>
    obtain ⟨k', v'⟩ := hd
    by_cases hk : k' = k <;> simp [dictSetLast, dictGet, hk, ih]

theorem dictGet_setLast_ne (k : String) (t : Int) (l : List (String × Chat))
    (k₂ : String) (h : k₂ ≠ k) :
    dictGet k₂ (dictSetLast k t l) = dictGet k₂ l := by
  induction l with
  | nil => simp [dictSetLast]
  | cons hd tl ih =>
    obtain ⟨k', v'⟩ := hd
    by_cases hk : k' = k
    · subst hk
      simp [dictSetLast, dictGet, Ne.symm h, ih]
    · simp [dictSetLast, dictGet, hk, ih]

theorem dictGet_none_iff (k : String) (l : List (String × Chat)) :
    dictGet k l = none ↔ k ∉ l.map Prod.fst := by
  induction l with
  | nil => simp [dictGet]
  | cons hd tl ih =>
    obtain ⟨k', v'⟩ := hd
    by_cases hk : k' = k
    · subst hk
      simp [dictGet]
    · have hk' : k ≠ k' := fun hh => hk hh.symm
      simp [dictGet, hk, ih, hk']

theorem keys_nodup_insert (k : String) (v : Chat) (l : List (String × Chat))
    (h : (l.map Prod.fst).Nodup) :
    ((dictInsert k v l).map Prod.fst).Nodup := by
  cases hg : dictGet k l with
  | none =>
    rw [keys_insert_absent k v l hg]
    have hk : k ∉ l.map Prod.fst := (dictGet_none_iff k l).mp hg
    simp [List.nodup_append, h, hk]
  | some c =>
    rw [keys_insert_present k v l (by simp [hg])]
    exact h

theorem pcp_reject (s : AgentState) (u p : String) (t : Int)
    (b : Except String String) (h : ¬ (s.request_count + 1 ≤ s.daily_limit)) :
    process_chat_prompt s u p t b =
      (.error (.doneForTheDay "Daily limit has been reached."), s) := by
  simp only [process_chat_prompt]
  rw [if_pos h]

theorem pcp_ok_state (s : AgentState) (u p : String) (t : Int) (r : String)
    (h : s.request_count + 1 ≤ s.daily_limit) :
    (process_chat_prompt s u p t (.ok r)).1 = .ok r ∧
    (process_chat_prompt s u p t (.ok r)).2.request_count = s.request_count + 1 ∧
    (process_chat_prompt s u p t (.ok r)).2.daily_limit = s.daily_limit := by
  simp only [process_chat_prompt]
  rw [if_neg (not_not_intro h)]
  cases hg : get_chat_for_user s u <;> simp [store_chat]

theorem pcp_err_state (s : AgentState) (u p : String) (t : Int) (e : String)
    (h : s.request_count + 1 ≤ s.daily_limit) :
    (process_chat_prompt s u p t (.error e)).1 = .error (.backendError e) ∧
    (process_chat_prompt s u p t (.error e)).2.request_count = s.request_count ∧
    (process_chat_prompt s u p t (.error e)).2.daily_limit = s.daily_limit := by
  simp only [process_chat_prompt]
  rw [if_neg (not_not_intro h)]
  cases hg : get_chat_for_user s u <;> simp [store_chat]

theorem iterDispatch_count (u p : String) (t : Int) (r : String) :
    ∀ (k : Nat) (s : AgentState), s.request_count + k ≤ s.daily_limit →
      (iterDispatch u p t r k s).request_count = s.request_count + k ∧
      (iterDispatch u p t r k s).daily_limit = s.daily_limit := by
  intro k
  induction k with
  | zero => intro s _; simp [iterDispatch]
  | succ n ih =>
    intro s h
    have h1 : s.request_count + 1 ≤ s.daily_limit := by push_cast at h ⊢; omega
    obtain ⟨-, hc, hd⟩ := pcp_ok_state s u p t r h1
    have h2 : (process_chat_prompt s u p t (.ok r)).2.request_count + n ≤
        (process_chat_prompt s u p t (.ok r)).2.daily_limit := by
      rw [hc, hd]; push_cast at h ⊢; omega
    obtain ⟨hc', hd'⟩ := ih (process_chat_prompt s u p t (.ok r)).2 h2
    refine ⟨?_, ?_⟩
    · simp only [iterDispatch]
      rw [hc', hc]; push_cast; ring
    · simp only [iterDispatch]
      rw [hd', hd]

theorem pcp_ok_chats_present (s : AgentState) (u p : String) (t : Int) (r : String)
    (h : s.request_count + 1 ≤ s.daily_limit) (c0 : Chat)
    (hg : dictGet u s.chats = some c0) :
    (process_chat_prompt s u p t (.ok r)).2.chats = dictSetLast u t s.chats := by
  simp only [process_chat_prompt, get_chat_for_user]
  rw [if_neg (not_not_intro h), hg]

theorem pcp_ok_chats_absent (s : AgentState) (u p : String) (t : Int) (r : String)
    (h : s.request_count + 1 ≤ s.daily_limit)
    (hg : dictGet u s.chats = none) :
    (process_chat_prompt s u p t (.ok r)).2.chats =
      dictSetLast u t (dictInsert u ⟨u, t, none⟩ s.chats) := by
  simp only [process_chat_prompt, get_chat_for_user, store_chat]
  rw [if_neg (not_not_intro h), hg]

theorem pcp_err_chats_present (s : AgentState) (u p : String) (t : Int) (e : String)
    (h : s.request_count + 1 ≤ s.daily_limit) (c0 : Chat)
    (hg : dictGet u s.chats = some c0) :
    (process_chat_prompt s u p t (.error e)).2.chats = s.chats := by
  simp only [process_chat_prompt, get_chat_for_user]
  rw [if_neg (not_not_intro h), hg]

theorem pcp_err_chats_absent (s : AgentState) (u p : String) (t : Int) (e : String)
    (h : s.request_count + 1 ≤ s.daily_limit)
    (hg : dictGet u s.chats = none) :
    (process_chat_prompt s u p t (.error e)).2.chats =
      dictInsert u ⟨u, t, none⟩ s.chats := by
  simp only [process_chat_prompt, get_chat_for_user, store_chat]
  rw [if_neg (not_not_intro h), hg]

theorem roundHalfEvenDiv_nonneg (a b : Int) (ha : 0 ≤ a) (hb : 0 < b) :
    0 ≤ roundHalfEvenDiv a b := by
  simp only [roundHalfEvenDiv]
  have h1 : 0 ≤ a / b := Int.ediv_nonneg ha hb.le
  split_ifs <;> omega

theorem truncDiv_nonneg (a b : Int) (ha : 0 ≤ a) (hb : 0 < b) :
    0 ≤ truncDiv a b := by
  simp only [truncDiv]
  rw [if_neg (by omega)]
  exact Int.ediv_nonneg ha hb.le

/-! ## Claim theorems -/

/-- C1: the utils.py quota check admits iff `request_count + 1 < daily_limit`
(strict) and the agent.py quota check admits iff `request_count + 1 ≤
daily_limit` — the two variants the claim flags as ambiguous; a rejected
check performs no mutation; `resetQuota` zeroes the counter and touches
nothing else; and from a zero counter with an always-succeeding backend,
each of the first `daily_limit` text dispatches through the agent succeeds
(leaving the counter at the number of successes), and the next one is
rejected with DoneForTheDay, mutating nothing. -/
theorem quota_gate_spec :
    (∀ N c : Int, validate_request_limit N c = .ok () ↔ c + 1 < N) ∧
    (∀ N c : Int, validate_request_limit_agent N c = .ok () ↔ c + 1 ≤ N) ∧
    (∀ (s : AgentState) (u p : String) (t : Int) (b : Except String String),
      ¬ (s.request_count + 1 ≤ s.daily_limit) →
      process_chat_prompt s u p t b =
        (.error (.doneForTheDay "Daily limit has been reached."), s)) ∧
    (∀ s : AgentState, (resetQuota s).request_count = 0 ∧
      (resetQuota s).daily_limit = s.daily_limit ∧ (resetQuota s).chats = s.chats) ∧
    (∀ (s : AgentState) (u p : String) (t : Int) (r : String) (k : Nat),
      s.request_count = 0 → (k : Int) ≤ s.daily_limit →
      (iterDispatch u p t r k s).request_count = k) ∧
    (∀ (s : AgentState) (u p : String) (t : Int) (r : String) (k : Nat),
      s.request_count = 0 → (k : Int) < s.daily_limit →
      (process_chat_prompt (iterDispatch u p t r k s) u p t (.ok r)).1 = .ok r) ∧
    (∀ (s : AgentState) (u p : String) (t : Int) (r : String) (N : Nat),
      s.request_count = 0 → s.daily_limit = (N : Int) →
      process_chat_prompt (iterDispatch u p t r N s) u p t (.ok r) =
        (.error (.doneForTheDay "Daily limit has been reached."),
          iterDispatch u p t r N s)) := by
  refine ⟨?_, ?_, ?_, ?_, ?_, ?_, ?_⟩
  · intro N c
    by_cases h : c + 1 < N <;> simp [validate_request_limit, h]
  · intro N c
    by_cases h : c + 1 ≤ N <;> simp [validate_request_limit_agent, h]
  · intro s u p t b h
    exact pcp_reject s u p t b h
  · intro s
    exact ⟨rfl, rfl, rfl⟩
  · intro s u p t r k h0 hk
    have h := (iterDispatch_count u p t r k s (by omega)).1
    omega
  · intro s u p t r k h0 hk
    obtain ⟨hc, hd⟩ := iterDispatch_count u p t r k s (by omega)
    exact (pcp_ok_state _ u p t r (by omega)).1
  · intro s u p t r N h0 hN
    obtain ⟨hc, hd⟩ := iterDispatch_count u p t r N s (by omega)
    exact pcp_reject _ u p t _ (by omega)

/-- C1 witness: with `daily_limit = 2` and `request_count = 2`, the next
dispatch is rejected with DoneForTheDay and the state is unchanged. -/
theorem quota_gate_spec_witness :
    (¬ ((⟨2, [], 2⟩ : AgentState).request_count + 1 ≤
        (⟨2, [], 2⟩ : AgentState).daily_limit)) ∧
    process_chat_prompt ⟨2, [], 2⟩ "u" "p" 7 (.ok "r") =
      (.error (.doneForTheDay "Daily limit has been reached."), ⟨2, [], 2⟩) :=
  ⟨by decide, quota_gate_spec.2.2.1 ⟨2, [], 2⟩ "u" "p" 7 (.ok "r") (by decide)⟩

/-- C2 counterexample: a successful attachment dispatch
(`process_file_prompt`) does not increment the request counter — the call
succeeds and the counter stays 0, refuting "every successful dispatch …
the attachment path alike — increments the request counter by exactly
one". -/
theorem file_prompt_no_increment_cex :
    (process_file_prompt ⟨5, [], 0⟩ "alice" "hi"
        ⟨"pic.png", ⟨true, ""⟩, "image/png"⟩ (.ok "resp")).1 = .ok "resp" ∧
    (process_file_prompt ⟨5, [], 0⟩ "alice" "hi"
        ⟨"pic.png", ⟨true, ""⟩, "image/png"⟩ (.ok "resp")).2.1.request_count = 0 :=
  ⟨rfl, rfl⟩

/-- C2 amended: the text path increments the counter by exactly one, and
only after the backend call succeeds — a failed or quota-rejected call
leaves the counter unchanged; the attachment path leaves the whole agent
state (counter included) unchanged on every outcome, i.e. it never
increments. -/
theorem increment_on_success_amended :
    ∀ (s : AgentState) (u p : String) (t : Int) (r e : String) (f : File)
      (b : Except String String),
      (s.request_count + 1 ≤ s.daily_limit →
        (process_chat_prompt s u p t (.ok r)).2.request_count =
          s.request_count + 1) ∧
      ((process_chat_prompt s u p t (.error e)).2.request_count =
        s.request_count) ∧
      (¬ (s.request_count + 1 ≤ s.daily_limit) →
        (process_chat_prompt s u p t (.ok r)).2 = s) ∧
      ((process_file_prompt s u p f b).2.1 = s) := by
  intro s u p t r e f b
  refine ⟨?_, ?_, ?_, ?_⟩
  · intro h
    exact (pcp_ok_state s u p t r h).2.1
  · by_cases h : s.request_count + 1 ≤ s.daily_limit
    · exact (pcp_err_state s u p t e h).2.1
    · rw [pcp_reject s u p t _ h]
  · intro h
    rw [pcp_reject s u p t _ h]
  · simp only [process_file_prompt]
    split_ifs <;> cases b <;> rfl

/-- C2 amended witness: from a fresh state with limit 5, a successful text
dispatch leaves the counter at 1. -/
theorem increment_on_success_amended_witness :
    ((⟨5, [], 0⟩ : AgentState).request_count + 1 ≤
      (⟨5, [], 0⟩ : AgentState).daily_limit) ∧
    (process_chat_prompt ⟨5, [], 0⟩ "alice" "hi" 7 (.ok "resp")).2.request_count =
      (⟨5, [], 0⟩ : AgentState).request_count + 1 :=
  ⟨by decide,
    (increment_on_success_amended ⟨5, [], 0⟩ "alice" "hi" 7 "resp" "e"
      ⟨"f", ⟨true, ""⟩, "image/png"⟩ (.ok "resp")).1 (by decide)⟩

/-- C4 counterexample: with an empty session store, a text dispatch whose
backend call fails leaves a freshly created session for the user in the
store — the Session Store is not "exactly as it was before the call",
refuting the claim for a user who had no session. -/
theorem backend_failure_adds_session_cex :
    (process_chat_prompt ⟨5, [], 0⟩ "alice" "hi" 100 (.error "boom")).1 =
      .error (.backendError "boom") ∧
    (process_chat_prompt ⟨5, [], 0⟩ "alice" "hi" 100 (.error "boom")).2.chats =
      [("alice", ⟨"alice", 100, none⟩)] ∧
    ((⟨5, [], 0⟩ : AgentState).chats = []) ∧
    ([("alice", (⟨"alice", 100, none⟩ : Chat))] ≠ ([] : List (String × Chat))) :=
  ⟨rfl, rfl, rfl, by simp⟩

/-- C4 amended: when the backend call of a text dispatch fails, the failure
propagates as a backend error and neither the quota counter nor any
existing session changes; but for a user who had no session, a fresh
session (created now, no last-activity) has been inserted into the store
before the backend call and remains there — sessions of all other users are
untouched. -/
theorem backend_failure_state_amended :
    ∀ (s : AgentState) (u p : String) (t : Int) (e : String),
      s.request_count + 1 ≤ s.daily_limit →
      (process_chat_prompt s u p t (.error e)).1 = .error (.backendError e) ∧
      (process_chat_prompt s u p t (.error e)).2.request_count =
        s.request_count ∧
      (process_chat_prompt s u p t (.error e)).2.daily_limit = s.daily_limit ∧
      (∀ c, dictGet u s.chats = some c →
        (process_chat_prompt s u p t (.error e)).2.chats = s.chats) ∧
      (dictGet u s.chats = none →
        (process_chat_prompt s u p t (.error e)).2.chats =
          dictInsert u ⟨u, t, none⟩ s.chats ∧
        ∀ v, v ≠ u →
          dictGet v (process_chat_prompt s u p t (.error e)).2.chats =
            dictGet v s.chats) := by
  intro s u p t e h
  simp only [process_chat_prompt, get_chat_for_user]
  rw [if_neg (not_not_intro h)]
  cases hg : dictGet u s.chats with
  | some c0 =>
    simp [hg, store_chat]
  | none =>
    simp only [hg, store_chat]
    refine ⟨trivial, trivial, trivial, ?_, ?_⟩
    · intro c hc
      exact absurd hc (by simp)
    · intro _
      exact ⟨trivial, fun v hv => dictGet_insert_ne u _ s.chats v hv⟩

/-- C4 amended witness: empty store, limit 5 — after a failed backend call
the counter is unchanged. -/
theorem backend_failure_state_amended_witness :
    ((⟨5, [], 0⟩ : AgentState).request_count + 1 ≤
      (⟨5, [], 0⟩ : AgentState).daily_limit) ∧
    (process_chat_prompt ⟨5, [], 0⟩ "alice" "hi" 100 (.error "boom")).2.request_count =
      (⟨5, [], 0⟩ : AgentState).request_count :=
  ⟨by decide,
    (backend_failure_state_amended ⟨5, [], 0⟩ "alice" "hi" 100 "boom"
      (by decide)).2.1⟩

/-- C3: evaluation of the eviction sweep at the failing inputs (ttl = 2
hours, now = 1000000). (1) With two sessions both idle for 4 hours, the
sweep removes the first and then raises RuntimeError (dictionary changed
size during iteration) instead of removing both. (2) A session idle for
TTL + 1 second (7201 s) survives, because the idle duration is truncated to
whole hours (2) and 2 > 2 fails — the claim says it is removed. (3) A
session that never sent a message raises TypeError (`None > int`) instead
of falling back to `created_at`. -/
theorem sweep_behavior_at_failing_inputs :
    erase_old_chats 2 1000000
        [("a", ⟨"a", 0, some 985600⟩), ("b", ⟨"b", 0, some 985600⟩)] =
      .error .runtimeError ∧
    erase_old_chats 2 1000000 [("c", ⟨"c", 0, some 992799⟩)] =
      .ok [("c", ⟨"c", 0, some 992799⟩)] ∧
    erase_old_chats 2 1000000 [("d", ⟨"d", 5, none⟩)] = .error .typeError ∧
    get_time_delta (some 992799) (some 1000000) = some 2 := by
  refine ⟨?_, ?_, ?_, ?_⟩ <;> rfl

set_option maxRecDepth 20000 in
/-- C5 counterexample: a 1000-character prompt is admitted by the bot.py
prompt gate, refuting "validation fails iff p is empty or its length is at
least 1000". -/
theorem long_prompt_admitted_cex :
    prompt_admitted (String.mk (List.replicate 1000 'a')) = true ∧
    (String.mk (List.replicate 1000 'a')).length = 1000 := by
  constructor
  · rfl
  · simp [String.length]

/-- C5 amended: prompt validation fails iff the prompt is empty; every
nonempty prompt, of any length, is admitted — there is no upper length
bound in the code. -/
theorem prompt_validation_amended :
    ∀ p : String, prompt_admitted p = true ↔ 1 ≤ p.length := by
  intro p
  simp [prompt_admitted]
  omega

/-- C5 amended witness: the nonempty prompt "hi" is admitted. -/
theorem prompt_validation_amended_witness :
    prompt_admitted "hi" = true :=
  (prompt_validation_amended "hi").mpr (by decide)

/-- C6 counterexample: for the admitted audio type `audio/mp3` (and the
admitted video type `video/mp4`), the classifier returns Python `None` —
neither an AttachmentFile nor a failure — refuting "classify of an admitted
audio/video type fails closed with FileProcessingFailure". -/
theorem audio_returns_none_cex :
    get_file "song.mp3" ⟨true, ""⟩ "audio/mp3" = .ok none ∧
    get_file "clip.mp4" ⟨true, ""⟩ "video/mp4" = .ok none := ⟨rfl, rfl⟩

/-- C6 amended: `application/pdf` fails (allow-list entry is False);
admitted image types with decodable bytes yield a File; an admitted image
type with undecodable bytes fails with the decoder's message; admitted
audio (`audio/mp3`, `audio/mp4`) and the video types listed in the match
return Python `None` with no error; admitted types missing from the match
(`video/quicktime`, `text/plain; charset=utf-8`) fail with "Invalid file
type". -/
theorem classifier_amended :
    ∀ (filename : String) (content : IOContent),
      (get_file filename content "application/pdf" =
        .error (.fileProcessing "That filetype is not supported.")) ∧
      (content.decodable = true →
        get_file filename content "image/jpeg" =
          .ok (some ⟨filename, content, "image/jpeg"⟩) ∧
        get_file filename content "image/jpg" =
          .ok (some ⟨filename, content, "image/jpg"⟩) ∧
        get_file filename content "image/png" =
          .ok (some ⟨filename, content, "image/png"⟩)) ∧
      (content.decodable = false →
        get_file filename content "image/png" =
          .error (.fileProcessing content.decode_error)) ∧
      (get_file filename content "audio/mp3" = .ok none) ∧
      (get_file filename content "audio/mp4" = .ok none) ∧
      (get_file filename content "video/mp4" = .ok none) ∧
      (get_file filename content "video/webm" = .ok none) ∧
      (get_file filename content "video/quicktime" =
        .error (.fileProcessing "Invalid file type. video/quicktime")) ∧
      (get_file filename content "text/plain; charset=utf-8" =
        .error (.fileProcessing "Invalid file type. text/plain; charset=utf-8")) := by
  intro filename content
  obtain ⟨d, msg⟩ := content
  refine ⟨rfl, ?_, ?_, rfl, rfl, rfl, rfl, rfl, rfl⟩
  · intro hd
    cases d
    · exact absurd hd (by simp)
    · exact ⟨rfl, rfl, rfl⟩
  · intro hd
    cases d
    · rfl
    · exact absurd hd (by simp)

/-- C6 amended witness: decodable PNG bytes yield an AttachmentFile. -/
theorem classifier_amended_witness :
    ((⟨true, ""⟩ : IOContent).decodable = true) ∧
    get_file "a.png" ⟨true, ""⟩ "image/png" =
      .ok (some ⟨"a.png", ⟨true, ""⟩, "image/png"⟩) :=
  ⟨by decide, ((classifier_amended "a.png" ⟨true, ""⟩).2.1 (by decide)).2.2⟩

/-- C8 counterexample: when the backend call of the attachment path raises,
`process_file_prompt` propagates the error without ever invoking
`File.close()` (no try/finally in the source), refuting "the attachment's
resource is released … on every exit path". -/
theorem file_not_closed_on_failure_cex :
    (process_file_prompt ⟨5, [], 0⟩ "alice" "hi"
        ⟨"pic.png", ⟨true, ""⟩, "image/png"⟩ (.error "boom")).2.2 = false ∧
    (process_file_prompt ⟨5, [], 0⟩ "alice" "hi"
        ⟨"pic.png", ⟨true, ""⟩, "image/png"⟩ (.error "boom")).1 =
      .error (.backendError "boom") := ⟨rfl, rfl⟩

/-- C8 amended: `File.close()` is invoked exactly when the quota check
admits the request and the backend call succeeds; on a quota rejection or a
backend failure the file is left open. -/
theorem file_close_iff_success :
    ∀ (s : AgentState) (u p : String) (f : File) (b : Except String String),
      (process_file_prompt s u p f b).2.2 =
        (decide (s.request_count + 1 ≤ s.daily_limit) && exceptOk b) := by
  intro s u p f b
  simp only [process_file_prompt]
  by_cases h : s.request_count + 1 ≤ s.daily_limit
  · rw [if_neg (not_not_intro h)]
    cases b <;> simp [exceptOk, h]
  · rw [if_pos h]
    simp [h]

/-- C9 counterexample: on a store with 3 sessions, `remove_all_chats`
returns `None` (its `-> None` annotation), not the count 3 — the count is
only logged — refuting "returns the count n of sessions removed". -/
theorem remove_all_returns_none_cex :
    (remove_all_chats ⟨5, [("a", ⟨"a", 0, none⟩), ("b", ⟨"b", 0, none⟩),
        ("c", ⟨"c", 0, none⟩)], 2⟩).1 = none ∧
    (remove_all_chats ⟨5, [("a", ⟨"a", 0, none⟩), ("b", ⟨"b", 0, none⟩),
        ("c", ⟨"c", 0, none⟩)], 2⟩).1 ≠ some 3 ∧
    (remove_all_chats ⟨5, [("a", ⟨"a", 0, none⟩), ("b", ⟨"b", 0, none⟩),
        ("c", ⟨"c", 0, none⟩)], 2⟩).2.1 = 3 := by
  refine ⟨rfl, ?_, rfl⟩
  intro h
  exact Option.noConfusion h

/-- C9 amended: `remove_all_chats` returns `None`; the number of sessions
removed (the store's size) is only logged; afterwards the store is empty,
so `get` returns none for every user, and the request counter is
untouched. -/
theorem remove_all_amended :
    ∀ (s : AgentState) (u : String),
      (remove_all_chats s).1 = none ∧
      (remove_all_chats s).2.1 = s.chats.length ∧
      (remove_all_chats s).2.2.chats = [] ∧
      dictGet u (remove_all_chats s).2.2.chats = none ∧
      (remove_all_chats s).2.2.request_count = s.request_count := by
  intro s u
  exact ⟨rfl, rfl, rfl, rfl, rfl⟩

/-- C7: assuming the store's keys are distinct (a dict invariant), any text
dispatch preserves that, never removes a session, and — when the user
already has a session — keeps the key set unchanged (no second Session and
no replacement) and leaves the stored session's `created_at` unchanged. -/
theorem session_uniqueness :
    ∀ (s : AgentState) (u p : String) (t : Int) (b : Except String String),
      (s.chats.map Prod.fst).Nodup →
      (((process_chat_prompt s u p t b).2.chats.map Prod.fst).Nodup) ∧
      (∀ v, (dictGet v s.chats).isSome →
        (dictGet v (process_chat_prompt s u p t b).2.chats).isSome) ∧
      (∀ c, dictGet u s.chats = some c →
        (process_chat_prompt s u p t b).2.chats.map Prod.fst =
          s.chats.map Prod.fst ∧
        ∃ c', dictGet u (process_chat_prompt s u p t b).2.chats = some c' ∧
          c'.creation_time = c.creation_time) := by
  intro s u p t b hnd
  by_cases hq : s.request_count + 1 ≤ s.daily_limit
  · cases hg : dictGet u s.chats with
    | some c0 =>
      cases b with
      | error e =>
        have hch := pcp_err_chats_present s u p t e hq c0 hg
        refine ⟨?_, ?_, ?_⟩
        · rw [hch]; exact hnd
        · intro v hv; rw [hch]; exact hv
        · intro c hc
          obtain rfl : c0 = c := Option.some.inj hc
          rw [hch]
          exact ⟨rfl, c0, hg, rfl⟩
      | ok r =>
        have hch := pcp_ok_chats_present s u p t r hq c0 hg
        refine ⟨?_, ?_, ?_⟩
        · rw [hch, keys_setLast]; exact hnd
        · intro v hv
          rw [hch]
          by_cases hvu : v = u
          · subst hvu
            rw [dictGet_setLast_self, hg]
            simp
          · rw [dictGet_setLast_ne u t s.chats v hvu]
            exact hv
        · intro c hc
          obtain rfl : c0 = c := Option.some.inj hc
          constructor
          · rw [hch, keys_setLast]
          · rw [hch, dictGet_setLast_self, hg]
            exact ⟨_, rfl, rfl⟩
    | none =>
      cases b with
      | error e =>
        have hch := pcp_err_chats_absent s u p t e hq hg
        refine ⟨?_, ?_, ?_⟩
        · rw [hch]; exact keys_nodup_insert u _ s.chats hnd
        · intro v hv
          have hvu : v ≠ u := by
            intro hvu; subst hvu; rw [hg] at hv; simp at hv
          rw [hch, dictGet_insert_ne u _ s.chats v hvu]
          exact hv
        · intro c hc
          exact absurd hc (by simp)
      | ok r =>
        have hch := pcp_ok_chats_absent s u p t r hq hg
        refine ⟨?_, ?_, ?_⟩
        · rw [hch, keys_setLast]; exact keys_nodup_insert u _ s.chats hnd
        · intro v hv
          have hvu : v ≠ u := by
            intro hvu; subst hvu; rw [hg] at hv; simp at hv
          rw [hch, dictGet_setLast_ne u t _ v hvu,
            dictGet_insert_ne u _ s.chats v hvu]
          exact hv
        · intro c hc
          exact absurd hc (by simp)
  · have hr := pcp_reject s u p t b hq
    rw [hr]
    exact ⟨hnd, fun v hv => hv, fun c hc => ⟨rfl, c, hc, rfl⟩⟩

/-- C7 witness: a store holding one session for "alice"; a successful
dispatch keeps a single session whose `created_at` is still 1. -/
theorem session_uniqueness_witness :
    (([("alice", (⟨"alice", 1, none⟩ : Chat))].map Prod.fst).Nodup) ∧
    (∃ c', dictGet "alice"
        (process_chat_prompt ⟨5, [("alice", ⟨"alice", 1, none⟩)], 0⟩
          "alice" "hi" 9 (.ok "r")).2.chats = some c' ∧
      c'.creation_time = 1) :=
  ⟨by decide, by
    have h := session_uniqueness ⟨5, [("alice", ⟨"alice", 1, none⟩)], 0⟩
      "alice" "hi" 9 (.ok "r") (by decide)
    obtain ⟨c', hc', ht⟩ := (h.2.2 ⟨"alice", 1, none⟩ (by decide)).2
    exact ⟨c', hc', ht⟩⟩

/-- C10: `get_time_delta` is symmetric in its arguments, returns `none` iff
either argument is `none`, always returns a non-negative hour count, and on
an exact whole-hour difference of `k` hours returns exactly `k` — so idle
time is measured at whole-hour granularity, insensitive to argument
order. -/
theorem get_time_delta_props :
    (∀ a b : Option Int, get_time_delta a b = get_time_delta b a) ∧
    (∀ a b : Option Int, get_time_delta a b = none ↔ a = none ∨ b = none) ∧
    (∀ (a b : Option Int) (h : Int), get_time_delta a b = some h → 0 ≤ h) ∧
    (∀ (s : Int) (k : Int), 0 ≤ k →
      get_time_delta (some s) (some (s + 3600 * k)) = some k) := by
  refine ⟨?_, ?_, ?_, ?_⟩
  · intro a b
    cases a with
    | none => cases b <;> rfl
    | some s =>
      cases b with
      | none => rfl
      | some e =>
        simp only [get_time_delta]
        rcases lt_trichotomy s e with h | h | h
        · rw [if_neg (show ¬ e < s by omega), if_pos h]
        · subst h
          rw [if_neg (show ¬ s < s by omega)]
        · rw [if_pos h, if_neg (show ¬ s < e by omega)]
  · intro a b
    cases a <;> cases b <;> simp [get_time_delta]
  · intro a b h
    cases a with
    | none => simp [get_time_delta]
    | some s =>
      cases b with
      | none => simp [get_time_delta]
      | some e =>
        simp only [get_time_delta]
        by_cases he : e < s
        · rw [if_pos he]
          intro hsome
          obtain rfl := Option.some.inj hsome
          show 0 ≤ truncDiv (roundHalfEvenDiv ((s - e) * 100) 3600) 100
          exact truncDiv_nonneg _ _
            (roundHalfEvenDiv_nonneg _ _
              (mul_nonneg (by omega) (by norm_num)) (by norm_num))
            (by norm_num)
        · rw [if_neg he]
          intro hsome
          obtain rfl := Option.some.inj hsome
          show 0 ≤ truncDiv (roundHalfEvenDiv ((e - s) * 100) 3600) 100
          exact truncDiv_nonneg _ _
            (roundHalfEvenDiv_nonneg _ _
              (mul_nonneg (by omega) (by norm_num)) (by norm_num))
            (by norm_num)
  · intro s k hk
    simp only [get_time_delta]
    rw [if_neg (by omega : ¬ (s + 3600 * k < s))]
    show some (truncDiv (roundHalfEvenDiv ((s + 3600 * k - s) * 100) 3600) 100) =
      some k
    have h1 : (s + 3600 * k - s) * 100 = 3600 * (100 * k) := by ring
    rw [h1]
    have h2 : roundHalfEvenDiv (3600 * (100 * k)) 3600 = 100 * k := by
      simp only [roundHalfEvenDiv]
      have hd : (3600 * (100 * k)) / 3600 = 100 * k :=
        Int.mul_ediv_cancel_left _ (by norm_num)
      have hm : (3600 * (100 * k)) % 3600 = 0 := Int.mul_emod_right _ _
      rw [hd, hm]
      norm_num
    rw [h2]
    simp only [truncDiv]
    rw [if_neg (by omega : ¬ (100 * k < 0))]
    rw [Int.mul_ediv_cancel_left _ (by norm_num)]

/-- C10 witness: a two-hour difference (7200 s) yields exactly 2 hours. -/
theorem get_time_delta_props_witness :
    (0 : Int) ≤ 2 ∧ get_time_delta (some 0) (some (0 + 3600 * 2)) = some 2 :=
  ⟨by decide, get_time_delta_props.2.2.2 0 2 (by decide)⟩

end GeminiBot
